import Mathlib

/-!
Verification of the Safe-transaction normalization engine
(`parse_safe_transactions` in `main.py`) of the DAO-Accountant repository.

The Python function is shallowly embedded below.  Python `Decimal` values
(as produced by `Decimal(string)` and divided by powers of ten under the
default context with precision 50) are modelled by `PyDecimal`
(coefficient and exponent); Python string operations used by the source
(`str.lower`, `str.upper`, `str.isalnum`, ASCII-encodability, substring
tests) are modelled character-wise for the character ranges the program
manipulates (ASCII, Greek, Cyrillic, fullwidth forms).  Fallible code
paths are modelled with `Except`: the source's `except` clauses name
`decimal.InvalidOperation`, which is never imported, so a numeric parse
failure raises `NameError` at runtime; in the embedding such paths return
`Except.error`.
-/

namespace DAOAccountant

/-! ### Python string primitives -/

/-- Python `str.lower` on a single code point, for the ranges the program
touches: ASCII letters, Greek, Cyrillic and fullwidth Latin letters.
All other code points are left unchanged. -/
def pyLowerCode (n : Nat) : Nat :=
  if 65 ≤ n ∧ n ≤ 90 then n + 32
  else if 0x391 ≤ n ∧ n ≤ 0x3A1 then n + 32
  else if 0x3A3 ≤ n ∧ n ≤ 0x3A9 then n + 32
  else if 0x400 ≤ n ∧ n ≤ 0x40F then n + 80
  else if 0x410 ≤ n ∧ n ≤ 0x42F then n + 32
  else if 0xFF21 ≤ n ∧ n ≤ 0xFF3A then n + 32
  else n

/-- Python `str.upper` on a single code point, for the same ranges. -/
def pyUpperCode (n : Nat) : Nat :=
  if 97 ≤ n ∧ n ≤ 122 then n - 32
  else if 0x3B1 ≤ n ∧ n ≤ 0x3C1 then n - 32
  else if n = 0x3C2 then 0x3A3
  else if 0x3C3 ≤ n ∧ n ≤ 0x3C9 then n - 32
  else if 0x450 ≤ n ∧ n ≤ 0x45F then n - 80
  else if 0x430 ≤ n ∧ n ≤ 0x44F then n - 32
  else if 0xFF41 ≤ n ∧ n ≤ 0xFF5A then n - 32
  else n

def pyLowerChar (c : Char) : Char := Char.ofNat (pyLowerCode c.toNat)

def pyUpperChar (c : Char) : Char := Char.ofNat (pyUpperCode c.toNat)

/-- Python `str.lower`. -/
def pyLower (s : String) : String := String.mk (s.data.map pyLowerChar)

/-- Python `str.upper`. -/
def pyUpper (s : String) : String := String.mk (s.data.map pyUpperChar)

/-- `s.encode('ascii')` raises `UnicodeEncodeError` iff some code point is
outside the ASCII range. -/
def containsNonAscii (s : String) : Bool := s.data.any (fun c => 128 ≤ c.toNat)

/-- Python `str.isalnum` on a single code point, for the ranges the
program touches: ASCII digits and letters, Greek and Cyrillic letters,
mathematical alphanumeric symbols, fullwidth digits/letters and halfwidth
katakana.  General punctuation (including zero-width characters) is not
alphanumeric. -/
def pyIsAlnumChar (c : Char) : Bool :=
  let n := c.toNat
  (48 ≤ n && n ≤ 57) || (65 ≤ n && n ≤ 90) || (97 ≤ n && n ≤ 122) ||
  (0x370 ≤ n && n ≤ 0x3FF) || (0x400 ≤ n && n ≤ 0x52F) ||
  (0x1D400 ≤ n && n ≤ 0x1D7FF) ||
  (0xFF10 ≤ n && n ≤ 0xFF19) || (0xFF21 ≤ n && n ≤ 0xFF3A) ||
  (0xFF41 ≤ n && n ≤ 0xFF5A) || (0xFF66 ≤ n && n ≤ 0xFF9F)

/-- Substring test on the underlying character lists (Python `in`). -/
def listContainsSub (hay needle : List Char) : Bool :=
  match hay with
  | [] => needle.isEmpty
  | _ :: rest => needle.isPrefixOf hay || listContainsSub rest needle

/-- Python `needle in hay` for strings. -/
def strContains (hay needle : String) : Bool := listContainsSub hay.data needle.data

/-- Python `s.replace(" ", "")`: removal of standard ASCII spaces. -/
def removeStdSpaces (s : String) : String :=
  String.mk (s.data.filter (fun c => c ≠ ' '))

/-- Truthiness of an optional string field (Python treats both a missing
key / `None` and the empty string as falsy). -/
def optTruthy : Option String → Bool
  | none => false
  | some s => !s.isEmpty

/-- Python `a or b` on two optional string fields: the first operand when
it is truthy, otherwise the second operand unchanged. -/
def pyOrOpt (a b : Option String) : Option String :=
  match a with
  | some s => if s.isEmpty then b else some s
  | none => b

/-! ### Python `Decimal` model

A finite `Decimal` is a coefficient (carrying the sign) together with a
base-ten exponent.  The source only ever divides by `Decimal(10) ** n`,
so only that division is modelled, under the source's context precision
of 50 digits. -/

structure PyDecimal where
  coeff : Int
  exp : Int
deriving Repr, DecidableEq

def decimalZero : PyDecimal := ⟨0, 0⟩

/-- Number of decimal digits of a natural number (fuel-based so it
reduces in the kernel). -/
def digitCountAux : Nat → Nat → Nat
  | 0, _ => 1
  | fuel + 1, n => if n < 10 then 1 else 1 + digitCountAux fuel (n / 10)

def digitCount (n : Nat) : Nat := digitCountAux n n

/-- Strip trailing decimal zeros, returning the reduced number and the
count of removed zeros (fuel-based). -/
def reduceTZAux : Nat → Nat → Nat × Nat
  | 0, m => (m, 0)
  | fuel + 1, m =>
    if m ≠ 0 ∧ m % 10 = 0 then
      let p := reduceTZAux fuel (m / 10)
      (p.1, p.2 + 1)
    else (m, 0)

def reduceTZ (m : Nat) : Nat × Nat := reduceTZAux m m

/-- `Decimal(10) ** e` under precision 50: exact power for `0 ≤ e ≤ 49`,
rounded to the 50-digit coefficient `10^49` beyond that, and the exact
value `1E+e` for negative `e`. -/
def decPow10 (e : Int) : PyDecimal :=
  if 0 ≤ e then
    if e ≤ 49 then ⟨(10 : Int) ^ e.toNat, 0⟩ else ⟨(10 : Int) ^ 49, e - 49⟩
  else ⟨1, e⟩

/-- Division `a / b` of Python `Decimal`s in the only case the source
uses: `b` is `Decimal(10) ** e`, so its coefficient is a positive power
of ten and the quotient is exact up to the context precision of 50.
The exact quotient is expressed with the exponent as close to the ideal
exponent `a.exp - b.exp` as the 50-digit coefficient limit allows; a
coefficient longer than 50 digits is rounded half-even. -/
def decDivPow (a b : PyDecimal) : PyDecimal :=
  let j : Nat := digitCount b.coeff.natAbs - 1
  let ideal : Int := a.exp - b.exp
  if a.coeff = 0 then ⟨0, ideal⟩
  else
    let sign : Int := if a.coeff < 0 then -1 else 1
    let rtz := reduceTZ a.coeff.natAbs
    let c : Nat := rtz.1
    let bigE : Int := a.exp - b.exp - j + rtz.2
    let dc := digitCount c
    if dc ≤ 50 then
      if ideal ≤ bigE then
        let p : Nat := min (bigE - ideal).toNat (50 - dc)
        ⟨sign * (c * 10 ^ p : Nat), bigE - p⟩
      else ⟨sign * c, bigE⟩
    else
      let drop := dc - 50
      let divp := 10 ^ drop
      let q := c / divp
      let r := c % divp
      let q1 := if divp < r * 2 then q + 1 else if r * 2 < divp then q else if q % 2 = 0 then q else q + 1
      if digitCount q1 ≤ 50 then ⟨sign * q1, bigE + drop⟩
      else ⟨sign * (q1 / 10), bigE + drop + 1⟩

/-- Python `str(Decimal)` for finite values: fixed-point notation when the
exponent is non-positive and the adjusted exponent is at least `-6`,
scientific notation otherwise. -/
def decToString (d : PyDecimal) : String :=
  let sign := if d.coeff < 0 then "-" else ""
  let digits := Nat.repr d.coeff.natAbs
  let nd : Int := digits.length
  let adjusted : Int := d.exp + nd - 1
  if d.exp ≤ 0 ∧ -6 ≤ adjusted then
    let dotplace : Int := nd + d.exp
    if dotplace ≤ 0 then
      sign ++ "0." ++ String.mk (List.replicate (-dotplace).toNat '0') ++ digits
    else
      let dp := dotplace.toNat
      let frac := digits.data.drop dp
      sign ++ String.mk (digits.data.take dp) ++
        (if frac.isEmpty then "" else "." ++ String.mk frac)
  else
    let frac := digits.data.drop 1
    let expStr := "E" ++ (if 0 ≤ adjusted then "+" ++ adjusted.toNat.repr else "-" ++ (-adjusted).toNat.repr)
    sign ++ String.mk (digits.data.take 1) ++
      (if frac.isEmpty then "" else "." ++ String.mk frac) ++ expStr

/-- `Decimal` comparison `d > 0`. -/
def decPosB (d : PyDecimal) : Bool := 0 < d.coeff

/-! ### Parsing decimal strings (`Decimal(str)`) -/

def digitVal (c : Char) : Nat := c.toNat - 48

def digitsToNat (cs : List Char) : Nat :=
  cs.foldl (fun a c => a * 10 + digitVal c) 0

/-- Split a character list at the first `e`/`E` (exponent marker). -/
def splitAtE : List Char → List Char × Option (List Char)
  | [] => ([], none)
  | c :: rest =>
    if c = 'e' ∨ c = 'E' then ([], some rest)
    else
      let p := splitAtE rest
      (c :: p.1, p.2)

/-- Strip an optional leading sign, returning whether it was `-`. -/
def stripSign : List Char → Bool × List Char
  | '-' :: rest => (true, rest)
  | '+' :: rest => (false, rest)
  | cs => (false, cs)

/-- Parse the mantissa `d+ | d+.d* | .d+`, returning the digit string as a
natural number together with the number of fractional digits. -/
def parseMantissa (cs : List Char) : Option (Nat × Nat) :=
  let ip := cs.takeWhile Char.isDigit
  let rest := cs.dropWhile Char.isDigit
  match rest with
  | [] => if ip.isEmpty then none else some (digitsToNat ip, 0)
  | '.' :: fp =>
    if fp.all Char.isDigit ∧ ¬(ip.isEmpty ∧ fp.isEmpty) then
      some (digitsToNat (ip ++ fp), fp.length)
    else none
  | _ => none

/-- Python `Decimal(s)` for finite numeric strings: an optional sign, a
digit string with an optional fractional part, and an optional exponent.
Returns `none` where the constructor would raise `InvalidOperation`. -/
def parsePyDecimal (s : String) : Option PyDecimal :=
  let sp := stripSign s.data
  let neg := sp.1
  let ep := splitAtE sp.2
  match parseMantissa ep.1 with
  | none => none
  | some (c, fl) =>
    let expv : Option Int :=
      match ep.2 with
      | none => some 0
      | some ecs =>
        let esp := stripSign ecs
        if esp.2.isEmpty ∨ ¬esp.2.all Char.isDigit then none
        else some (if esp.1 then -(digitsToNat esp.2 : Int) else (digitsToNat esp.2 : Int))
    match expv with
    | none => none
    | some e => some ⟨if neg then -(c : Int) else (c : Int), e - fl⟩

/-! ### Execution-date parsing

`datetime.strptime(raw, "%Y-%m-%dT%H:%M:%SZ")` followed by
`strftime('%Y-%m-%d %H:%M:%S')`.  `%Y` consumes exactly four digits;
`%m`, `%d`, `%H`, `%M`, `%S` consume one or two digits (two-digit forms
restricted to the field ranges), and the `datetime` constructor
validates month, day-of-month (calendar-aware), hour, minute, second and
requires year ≥ 1. -/

def isLeapYear (y : Nat) : Bool := (y % 4 == 0 && y % 100 != 0) || y % 400 == 0

def daysInMonth (y m : Nat) : Nat :=
  if m = 2 then (if isLeapYear y then 29 else 28)
  else if m = 4 ∨ m = 6 ∨ m = 9 ∨ m = 11 then 30
  else 31

/-- Parse a one-or-two-digit numeric field: the two-digit form is taken
when its value satisfies `twoOk`, otherwise a single digit satisfying
`oneOk` is taken. -/
def parseField (twoOk oneOk : Nat → Bool) : List Char → Option (Nat × List Char)
  | a :: b :: rest =>
    if a.isDigit && b.isDigit && twoOk (digitVal a * 10 + digitVal b) then
      some (digitVal a * 10 + digitVal b, rest)
    else if a.isDigit && oneOk (digitVal a) then some (digitVal a, b :: rest)
    else none
  | [a] => if a.isDigit && oneOk (digitVal a) then some (digitVal a, []) else none
  | [] => none

def expectChar (c : Char) : List Char → Option (List Char)
  | a :: rest => if a = c then some rest else none
  | [] => none

def pad2 (n : Nat) : String := if n < 10 then "0" ++ Nat.repr n else Nat.repr n

def pad4 (n : Nat) : String :=
  if n < 10 then "000" ++ Nat.repr n
  else if n < 100 then "00" ++ Nat.repr n
  else if n < 1000 then "0" ++ Nat.repr n
  else Nat.repr n

/-- Parse and re-format an execution date, `none` on `ValueError`. -/
def parseExecutionDate (s : String) : Option String := do
  let cs := s.data
  let y4 := cs.take 4
  if ¬(y4.length = 4 ∧ y4.all Char.isDigit) then none
  else
    let y := digitsToNat y4
    let rest ← expectChar '-' (cs.drop 4)
    let (m, rest) ← parseField (fun v => decide (1 ≤ v ∧ v ≤ 12)) (fun v => decide (1 ≤ v)) rest
    let rest ← expectChar '-' rest
    let (d, rest) ← parseField (fun v => decide (1 ≤ v ∧ v ≤ 31)) (fun v => decide (1 ≤ v)) rest
    let rest ← expectChar 'T' rest
    let (h, rest) ← parseField (fun v => decide (v ≤ 23)) (fun _ => true) rest
    let rest ← expectChar ':' rest
    let (mi, rest) ← parseField (fun v => decide (v ≤ 59)) (fun _ => true) rest
    let rest ← expectChar ':' rest
    let (sec, rest) ← parseField (fun v => decide (v ≤ 59)) (fun _ => true) rest
    let rest ← expectChar 'Z' rest
    if rest.isEmpty ∧ 1 ≤ y ∧ d ≤ daysInMonth y m then
      some (pad4 y ++ "-" ++ pad2 m ++ "-" ++ pad2 d ++ " " ++
            pad2 h ++ ":" ++ pad2 mi ++ ":" ++ pad2 sec)
    else none

/-! ### Data model

Raw transactions as consumed by `parse_safe_transactions`.  `Option`
marks JSON fields that may be absent; `isSuccessful` distinguishes an
absent key (Python defaults it to `True`) from an explicit `null`
(falsy). -/

structure TokenInfo where
  address : Option String
  symbol : Option String
  name : Option String
  decimals : Option Int
deriving Repr, DecidableEq

structure DataDecodedParam where
  value : Option String
deriving Repr, DecidableEq

structure DataDecoded where
  method : Option String
  parameters : Option (List DataDecodedParam)
deriving Repr, DecidableEq

structure Transfer where
  type : Option String
  fromAddr : Option String
  toAddr : Option String
  value : Option String
  tokenInfo : Option TokenInfo
  tokenAddress : Option String
  tokenId : Option String
  transactionHash : Option String
deriving Repr, DecidableEq

structure Tx where
  transactionHash : Option String
  txHash : Option String
  executionDate : Option String
  txType : Option String
  isSuccessful : Option (Option Bool)
  fee : Option String
  transfers : List Transfer
  dataDecoded : Option DataDecoded
  toAddr : Option String
deriving Repr, DecidableEq

/-- One parsed output row. -/
structure Record where
  Date : String
  WalletAddress : String
  Chain : String
  Direction : String
  Amount_Raw : String
  Currency : String
  Description : String
  TransactionHash : Option String
  Fee_Native : String
  Counterparty : String
deriving Repr, DecidableEq

/-- `tx.get('isSuccessful', True)` used as a boolean: missing key defaults
to `True`; an explicit `null` is falsy. -/
def successTruthy : Option (Option Bool) → Bool
  | none => true
  | some none => false
  | some (some b) => b

/-- Transaction types whose fee is attributed to the Safe. -/
def walletInitiated (t : Option String) : Bool :=
  t == some "MULTISIG_TRANSACTION" || t == some "MODULE_TRANSACTION"

/-- `native_currency_symbols.get(chain, "ETH")`. -/
def nativeCurrencySymbol (chain : String) : String :=
  if chain = "eth" then "ETH" else if chain = "optimism" then "ETH" else "ETH"

/-- The whitelist of trusted canonical USDT contract addresses
(lowercase), shared by all chains. -/
def trusted_usdt_addresses : List String :=
  ["0xdac17f958d2ee523a2206206994597c13d831ec7",
   "0x94b008aa00579c1307b0ef2c499ad98a8ce58e58"]

/-- Whether the transfer's token metadata carries a trusted token
contract address. -/
def is_authentic_usdt (token_info : Option TokenInfo) : Bool :=
  match token_info with
  | some ti =>
    match ti.address with
    | some a => if a.isEmpty then false else trusted_usdt_addresses.contains (pyLower a)
    | none => false
  | none => false

/-- Characters from the suspicious Unicode blocks of criterion 2. -/
def suspiciousChar (c : Char) : Bool :=
  let code := c.toNat
  (0x0400 ≤ code && code ≤ 0x04FF) || (0x0370 ≤ code && code ≤ 0x03FF) ||
  (0x0500 ≤ code && code ≤ 0x052F) || (0x2000 ≤ code && code ≤ 0x206F) ||
  (0x1D400 ≤ code && code ≤ 0x1D7FF) || (0xFF00 ≤ code && code ≤ 0xFFEF)

/-- The counterfeit-token filter (lines 312-423 of the source): the five
criteria, each evaluated only when no earlier criterion matched, all
guarded by the address whitelist. -/
def is_fake_token (fee_for_this_record_str currency_symbol token_name : String)
    (token_info : Option TokenInfo) : Bool :=
  let looks_like_usdt := strContains (pyUpper currency_symbol) "USD" ||
    strContains (pyUpper token_name) "USD"
  let exact_match_usdt : Bool := currency_symbol == "USDT"
  let is_zero_fee : Bool := fee_for_this_record_str == "0.0"
  let normalized_alnum_upper := pyUpper (String.mk (currency_symbol.data.filter pyIsAlnumChar))
  if is_authentic_usdt token_info then false
  else if (containsNonAscii currency_symbol || containsNonAscii token_name) &&
      (decide (3 ≤ currency_symbol.length) && decide (currency_symbol.length ≤ 5)) then true
  else if (currency_symbol ++ token_name).data.any suspiciousChar &&
      (decide (currency_symbol.length ≤ 5) &&
        (strContains normalized_alnum_upper "USD" || normalized_alnum_upper == "USDT")) then true
  else if (currency_symbol == "USDT") &&
      decide (currency_symbol.data.map Char.toNat ≠ [85, 83, 68, 84]) then true
  else if (normalized_alnum_upper == "USDT") && (currency_symbol != "USDT") then true
  else if (pyUpper (removeStdSpaces currency_symbol) == "USDT") && (currency_symbol != "USDT") then true
  else is_zero_fee && looks_like_usdt && !exact_match_usdt

/-- `fee_for_this_record_str` (lines 301-303). -/
def feeStringFor (tx_type : Option String) (tx_fee_native_decimal : PyDecimal) : String :=
  if walletInitiated tx_type then decToString tx_fee_native_decimal else "0.0"

/-- `token_info` / `token_name` recomputed for the filter
(lines 306-310): only ERC20 transfers carry token metadata there. -/
def erc20TokenMeta (transfer : Transfer) : Option TokenInfo × String :=
  if transfer.type = some "ERC20_TRANSFER" then
    match transfer.tokenInfo with
    | some ti => (some ti, ti.name.getD "")
    | none => (none, "")
  else (none, "")

/-- The `" (Method: …)"` suffix appended to a transfer description when
the transaction has decoded call data with a truthy method name. -/
def methodSuffix (dataDecoded : Option DataDecoded) : String :=
  match dataDecoded with
  | some dd =>
    match dd.method with
    | some m => if m.isEmpty then "" else " (Method: " ++ m ++ ")"
    | none => ""
  | none => ""

/-- Error message for a numeric parse failure inside a
`try`/`except (…, InvalidOperation, …)` block: evaluating the except
clause raises `NameError`, since `InvalidOperation` is never imported. -/
def nameErrorMsg : String := "NameError: name InvalidOperation is not defined"

/-- Error message for the one bare `Decimal(...)` call (line 258,
`decimals is None` branch), which has no enclosing `try`. -/
def invalidOperationMsg : String := "decimal.InvalidOperation"

/-- Amount, currency symbol and base description for one transfer
(lines 236-288).  `Except.error` models an uncaught exception;
`Except.ok none` models `continue` on an unknown transfer type. -/
def computeAmount (chain : String) (transfer : Transfer) (amount_value_str : String) :
    Except String (Option (PyDecimal × String × String)) :=
  if transfer.type = some "ERC20_TRANSFER" then
    match transfer.tokenInfo with
    | some token_info =>
      match token_info.decimals with
      | some decimals =>
        match parsePyDecimal amount_value_str with
        | some v => .ok (some (decDivPow v (decPow10 decimals),
            token_info.symbol.getD "UnknownERC20",
            "ERC20 Transfer " ++ token_info.symbol.getD "UnknownERC20"))
        | none => .error nameErrorMsg
      | none =>
        match parsePyDecimal amount_value_str with
        | some v => .ok (some (v, token_info.symbol.getD "UnknownERC20",
            "ERC20 Transfer " ++ token_info.symbol.getD "UnknownERC20"))
        | none => .error invalidOperationMsg
    | none =>
      match parsePyDecimal amount_value_str with
      | some v => .ok (some (v, transfer.tokenAddress.getD "UnknownERC20Addr",
          "ERC20 Transfer " ++ transfer.tokenAddress.getD "UnknownERC20Addr"))
      | none => .error nameErrorMsg
  else if transfer.type = some "ETHER_TRANSFER" then
    match parsePyDecimal amount_value_str with
    | some v => .ok (some (decDivPow v (decPow10 18), nativeCurrencySymbol chain,
        "Native Transfer " ++ nativeCurrencySymbol chain))
    | none => .error nameErrorMsg
  else if transfer.type = some "ERC721_TRANSFER" ∨ transfer.type = some "ERC1155_TRANSFER" then
    match parsePyDecimal amount_value_str with
    | some v =>
      .ok (some ((if transfer.type = some "ERC721_TRANSFER" ∧ v.coeff = 0 then ⟨1, 0⟩ else v),
        (match transfer.tokenInfo with
         | some ti => ti.symbol.getD "NFT"
         | none => "NFT"),
        (transfer.type.getD "UNKNOWN_TRANSFER").replace "_" " " ++ " " ++
          (match transfer.tokenInfo with
           | some ti => ti.symbol.getD "NFT"
           | none => "NFT") ++ " (ID: " ++ transfer.tokenId.getD "" ++ ")"))
    | none => .error nameErrorMsg
  else .ok none

/-- Assembly of one transfer record (lines 290-475): description suffix,
fee string, counterfeit filter, and the appended row.  `none` when the
filter drops the transfer. -/
def emitRecord (wallet_address_lower chain direction counterparty execution_date_str : String)
    (tx_type tx_hash_main : Option String) (dataDecoded : Option DataDecoded)
    (tx_fee_native_decimal : PyDecimal) (transfer : Transfer)
    (current_transfer_amount_decimal : PyDecimal) (currency_symbol description_base : String) :
    Option Record :=
  if is_fake_token (feeStringFor tx_type tx_fee_native_decimal) currency_symbol
      (erc20TokenMeta transfer).2 (erc20TokenMeta transfer).1 then none
  else some
    { Date := execution_date_str
      WalletAddress := wallet_address_lower
      Chain := chain
      Direction := direction
      Amount_Raw := decToString current_transfer_amount_decimal
      Currency := currency_symbol
      Description := description_base ++ methodSuffix dataDecoded
      TransactionHash := transfer.transactionHash <|> tx_hash_main
      Fee_Native := feeStringFor tx_type tx_fee_native_decimal
      Counterparty := counterparty }

/-- Body of one transfer iteration after the direction has been resolved
(the flag component is always `true` from this point on). -/
def transferBody (wallet_address_lower chain direction counterparty_raw : String)
    (execution_date_str : String) (tx_type tx_hash_main : Option String)
    (dataDecoded : Option DataDecoded) (tx_fee_native_decimal : PyDecimal)
    (transfer : Transfer) : Except String (Bool × Option Record) :=
  match computeAmount chain transfer (transfer.value.getD "0") with
  | .error e => .error e
  | .ok none => .ok (true, none)
  | .ok (some (amt, currency_symbol, description_base)) =>
    .ok (true, emitRecord wallet_address_lower chain direction
      (if counterparty_raw.isEmpty then "N/A" else pyLower counterparty_raw) execution_date_str
      tx_type tx_hash_main dataDecoded tx_fee_native_decimal transfer amt currency_symbol
      description_base)

/-- One iteration of the transfers loop (lines 207-475).  The boolean is
the contribution to `processed_any_transfer_for_this_wallet`. -/
def processTransfer (wallet_address_lower chain : String) (tx_type tx_hash_main : Option String)
    (execution_date_str : String) (tx_fee_native_decimal : PyDecimal)
    (dataDecoded : Option DataDecoded) (transfer : Transfer) :
    Except String (Bool × Option Record) :=
  match transfer.fromAddr, transfer.toAddr with
  | some f, some t =>
    if f.isEmpty ∨ t.isEmpty then .ok (false, none)
    else if pyLower f = wallet_address_lower then
      transferBody wallet_address_lower chain "OUT" t execution_date_str tx_type tx_hash_main
        dataDecoded tx_fee_native_decimal transfer
    else if pyLower t = wallet_address_lower then
      transferBody wallet_address_lower chain "IN" f execution_date_str tx_type tx_hash_main
        dataDecoded tx_fee_native_decimal transfer
    else .ok (false, none)
  | _, _ => .ok (false, none)

/-- Whether one transfer is attributed to the wallet by the direction
resolution (both endpoint fields present and truthy, and one of them
equal to the lowercased wallet): exactly the condition under which the
loop body sets `processed_any_transfer_for_this_wallet`. -/
def transferMatches (wallet_address_lower : String) (transfer : Transfer) : Bool :=
  match transfer.fromAddr, transfer.toAddr with
  | some f, some t =>
    !f.isEmpty && !t.isEmpty &&
      (pyLower f == wallet_address_lower || pyLower t == wallet_address_lower)
  | _, _ => false

/-- The transfers loop: accumulates the flag and the emitted records,
aborting on the first uncaught exception. -/
def transfersLoop (wallet_address_lower chain : String) (tx_type tx_hash_main : Option String)
    (execution_date_str : String) (tx_fee_native_decimal : PyDecimal)
    (dataDecoded : Option DataDecoded) :
    List Transfer → Bool → List Record → Except String (Bool × List Record)
  | [], flag, acc => .ok (flag, acc)
  | tr :: rest, flag, acc =>
    match processTransfer wallet_address_lower chain tx_type tx_hash_main execution_date_str
      tx_fee_native_decimal dataDecoded tr with
    | .error e => .error e
    | .ok (b, r) =>
      transfersLoop wallet_address_lower chain tx_type tx_hash_main execution_date_str
        tx_fee_native_decimal dataDecoded rest (flag || b) (acc ++ r.toList)

/-- `tx_fee_native_decimal` (lines 191-198): `fee / 10^18` for
wallet-initiated transactions with a truthy fee field; a parse failure
raises (`InvalidOperation` is not defined). -/
def computeTxFee (tx : Tx) : Except String PyDecimal :=
  if walletInitiated tx.txType then
    match tx.fee with
    | some f =>
      if f.isEmpty then .ok decimalZero
      else
        match parsePyDecimal f with
        | some d => .ok (decDivPow d (decPow10 18))
        | none => .error nameErrorMsg
    | none => .ok decimalZero
  else .ok decimalZero

/-- The final value of `processed_any_transfer_for_this_wallet` for one
transaction (when no exception interrupts the loop): the loop must have
run at all, and some transfer must have been attributed to the wallet. -/
def anyTransferAttributed (wallet_address_lower : String) (tx : Tx) : Bool :=
  (!tx.transfers.isEmpty &&
    (successTruthy tx.isSuccessful || tx.txType == some "ETHEREUM_TRANSACTION")) &&
  tx.transfers.any (transferMatches wallet_address_lower)

/-- The execution-date gate (lines 174-184): falsy or unparseable dates
skip the transaction. -/
def execDateOf (tx : Tx) : Option String :=
  match tx.executionDate with
  | none => none
  | some d => if d.isEmpty then none else parseExecutionDate d

/-- Truthiness of the decoded `parameters` field (a missing key, `null`
or an empty list are all falsy). -/
def paramsTruthy (dd : DataDecoded) : Bool :=
  match dd.parameters with
  | some ps => !ps.isEmpty
  | none => false

/-- Description of the synthetic fallback record before the `Failed`
prefix (lines 482-491), with the `approve` special case. -/
def syntheticDescriptionBase (tx : Tx) : String :=
  match tx.dataDecoded with
  | some dd =>
    match dd.method with
    | some m =>
      if m.isEmpty then "Safe Operation"
      else if pyLower m = "approve" ∧ optTruthy tx.toAddr = true ∧ paramsTruthy dd = true then
        match tx.toAddr, dd.parameters with
        | some toAddr, some params =>
          "Token Approval for " ++ toAddr ++ " to " ++
            (match params.head? with
             | some p => p.value.getD "Unknown Spender"
             | none => "Unknown Spender")
        | _, _ => "Contract Interaction: " ++ m
      else "Contract Interaction: " ++ m
    | none => "Safe Operation"
  | none => "Safe Operation"

/-- The synthetic fallback record (lines 493-513). -/
def syntheticRecord (wallet_address_lower chain execution_date_str : String) (tx : Tx)
    (tx_fee_native_decimal : PyDecimal) : Record :=
  { Date := execution_date_str
    WalletAddress := wallet_address_lower
    Chain := chain
    Direction := "OUT"
    Amount_Raw := "0.0"
    Currency := "N/A"
    Description :=
      (if successTruthy tx.isSuccessful then syntheticDescriptionBase tx
       else "Failed " ++ syntheticDescriptionBase tx)
    TransactionHash := pyOrOpt tx.transactionHash tx.txHash
    Fee_Native := decToString tx_fee_native_decimal
    Counterparty :=
      match tx.toAddr with
      | some s => if s.isEmpty then "N/A" else pyLower s
      | none => "N/A" }

/-- Processing of one raw transaction (lines 171-518). -/
def processTx (wallet_address_lower chain : String) (tx : Tx) : Except String (List Record) :=
  match execDateOf tx with
  | none => .ok []
  | some execution_date_str =>
    match computeTxFee tx with
    | .error e => .error e
    | .ok tx_fee_native_decimal =>
      match (if ¬tx.transfers.isEmpty ∧
          (successTruthy tx.isSuccessful = true ∨ tx.txType = some "ETHEREUM_TRANSACTION") then
          transfersLoop wallet_address_lower chain tx.txType (pyOrOpt tx.transactionHash tx.txHash)
            execution_date_str tx_fee_native_decimal tx.dataDecoded tx.transfers false []
        else .ok (false, [])) with
      | .error e => .error e
      | .ok (processed_any, recs) =>
        if processed_any = false ∧ walletInitiated tx.txType = true then
          if decPosB tx_fee_native_decimal = true ∨ successTruthy tx.isSuccessful = true then
            .ok (recs ++ [syntheticRecord wallet_address_lower chain execution_date_str tx
              tx_fee_native_decimal])
          else .ok recs
        else .ok recs

/-- The loop over all transactions, accumulating parsed records. -/
def parseLoop (wallet_address_lower chain : String) :
    List Tx → List Record → Except String (List Record)
  | [], acc => .ok acc
  | tx :: rest, acc =>
    match processTx wallet_address_lower chain tx with
    | .error e => .error e
    | .ok rs => parseLoop wallet_address_lower chain rest (acc ++ rs)

/-- `parse_safe_transactions(transactions, wallet_address, chain)`. -/
def parse_safe_transactions (transactions : List Tx) (wallet_address chain : String) :
    Except String (List Record) :=
  parseLoop (pyLower wallet_address) chain transactions []

/-! ### Concrete inputs used by the end-to-end theorems and witnesses -/

/-- The analysed wallet (already lowercase). -/
def w1 : String := "0x1111111111111111111111111111111111111111"

/-- End-to-end scenario: one ERC20 USDT transfer out of the wallet. -/
def trC1 : Transfer :=
  { type := some "ERC20_TRANSFER", fromAddr := some w1,
    toAddr := some "0xAbCdEfAbCdEfAbCdEfAbCdEfAbCdEfAbCdEfAbCd",
    value := some "1000000",
    tokenInfo := some { address := none, symbol := some "USDT", name := some "Tether USD",
                        decimals := some 6 },
    tokenAddress := none, tokenId := none, transactionHash := none }

def txC1 : Tx :=
  { transactionHash := some "0xaaa111", txHash := none,
    executionDate := some "2025-05-05T06:19:11Z", txType := some "MULTISIG_TRANSACTION",
    isSuccessful := some (some true), fee := some "1000000000000000",
    transfers := [trC1], dataDecoded := none, toAddr := none }

/-- The record produced for `txC1`. -/
def recC1 : Record :=
  { Date := "2025-05-05 06:19:11", WalletAddress := w1, Chain := "eth", Direction := "OUT",
    Amount_Raw := "1", Currency := "USDT", Description := "ERC20 Transfer USDT",
    TransactionHash := some "0xaaa111", Fee_Native := "0.001",
    Counterparty := "0xabcdefabcdefabcdefabcdefabcdefabcdefabcd" }

/-- A wallet-initiated transaction whose fee string does not parse as a
decimal. -/
def txC3 : Tx :=
  { transactionHash := some "0xc3", txHash := none,
    executionDate := some "2025-05-05T06:19:11Z", txType := some "MULTISIG_TRANSACTION",
    isSuccessful := some (some true), fee := some "not-a-number",
    transfers := [], dataDecoded := none, toAddr := none }

/-- A successful multisig transaction whose only transfer (attributed to
the wallet) is dropped by the counterfeit filter: its symbol ends in
Cyrillic capital Te (U+0422). -/
def trC4 : Transfer :=
  { type := some "ERC20_TRANSFER", fromAddr := some w1,
    toAddr := some "0x2222222222222222222222222222222222222222",
    value := some "1000000",
    tokenInfo := some { address := some "0xbad0000000000000000000000000000000000bad",
                        symbol := some "USDТ", name := some "Tether USD", decimals := some 6 },
    tokenAddress := none, tokenId := none, transactionHash := none }

def txC4 : Tx :=
  { transactionHash := some "0xc4", txHash := none,
    executionDate := some "2025-05-05T06:19:11Z", txType := some "MULTISIG_TRANSACTION",
    isSuccessful := some (some true), fee := none,
    transfers := [trC4], dataDecoded := none,
    toAddr := some "0x3333333333333333333333333333333333333333" }

/-- A failed multisig transaction with fee 21000000000000 wei and no
transfers. -/
def txC4w : Tx :=
  { transactionHash := some "0xc4w", txHash := none,
    executionDate := some "2025-05-05T06:19:11Z", txType := some "MULTISIG_TRANSACTION",
    isSuccessful := some (some false), fee := some "21000000000000",
    transfers := [], dataDecoded := none,
    toAddr := some "0x3333333333333333333333333333333333333333" }

/-- The synthetic record produced for `txC4w`. -/
def recC4w : Record :=
  { Date := "2025-05-05 06:19:11", WalletAddress := w1, Chain := "eth", Direction := "OUT",
    Amount_Raw := "0.0", Currency := "N/A", Description := "Failed Safe Operation",
    TransactionHash := some "0xc4w", Fee_Native := "0.000021",
    Counterparty := "0x3333333333333333333333333333333333333333" }

/-- An externally-originated transaction explicitly marked unsuccessful,
carrying an incoming native transfer. -/
def trC7 : Transfer :=
  { type := some "ETHER_TRANSFER", fromAddr := some "0x4444444444444444444444444444444444444444",
    toAddr := some w1, value := some "2000000000000000000",
    tokenInfo := none, tokenAddress := none, tokenId := none, transactionHash := some "0xc7t" }

def txC7 : Tx :=
  { transactionHash := none, txHash := some "0xc7", executionDate := some "2025-06-01T00:00:00Z",
    txType := some "ETHEREUM_TRANSACTION", isSuccessful := some (some false), fee := none,
    transfers := [trC7], dataDecoded := none, toAddr := none }

/-- The record produced for `txC7`. -/
def recC7 : Record :=
  { Date := "2025-06-01 00:00:00", WalletAddress := w1, Chain := "eth", Direction := "IN",
    Amount_Raw := "2", Currency := "ETH", Description := "Native Transfer ETH",
    TransactionHash := some "0xc7t", Fee_Native := "0.0",
    Counterparty := "0x4444444444444444444444444444444444444444" }

/-- A successful multisig transaction without transfers and without a
`to` address: its synthetic record carries the counterparty "N/A". -/
def txC8 : Tx :=
  { transactionHash := some "0xc8", txHash := none, executionDate := some "2025-06-01T00:00:00Z",
    txType := some "MULTISIG_TRANSACTION", isSuccessful := some (some true), fee := none,
    transfers := [], dataDecoded := none, toAddr := none }

/-- The synthetic record produced for `txC8`. -/
def recC8 : Record :=
  { Date := "2025-06-01 00:00:00", WalletAddress := w1, Chain := "eth", Direction := "OUT",
    Amount_Raw := "0.0", Currency := "N/A", Description := "Safe Operation",
    TransactionHash := some "0xc8", Fee_Native := "0", Counterparty := "N/A" }

/-- An incoming transfer of a token whose symbol "USDT " (trailing
space) would be dropped by criterion 4a, carried by the canonical
Ethereum-mainnet USDT contract address. -/
def trC9 : Transfer :=
  { type := some "ERC20_TRANSFER", fromAddr := some "0x5555555555555555555555555555555555555555",
    toAddr := some w1, value := some "5000000",
    tokenInfo := some { address := some "0xdac17f958d2ee523a2206206994597c13d831ec7",
                        symbol := some "USDT ", name := some "Tether USD", decimals := some 6 },
    tokenAddress := none, tokenId := none, transactionHash := some "0xc9t" }

def txC9 : Tx :=
  { transactionHash := none, txHash := some "0xc9", executionDate := some "2025-06-02T10:30:00Z",
    txType := some "ETHEREUM_TRANSACTION", isSuccessful := none, fee := none,
    transfers := [trC9], dataDecoded := none, toAddr := none }

/-- The record produced for `txC9` on an arbitrary chain. -/
def recC9 (chain : String) : Record :=
  { Date := "2025-06-02 10:30:00", WalletAddress := w1, Chain := chain, Direction := "IN",
    Amount_Raw := "5", Currency := "USDT ", Description := "ERC20 Transfer USDT ",
    TransactionHash := some "0xc9t", Fee_Native := "0.0",
    Counterparty := "0x5555555555555555555555555555555555555555" }

/-- Token metadata of `trC9` with an address outside the trusted set. -/
def tiC9b : TokenInfo :=
  { address := some "0xbad0000000000000000000000000000000000bad",
    symbol := some "USDT ", name := some "Tether USD", decimals := some 6 }

/-- The same transfer carried by an address outside the trusted set. -/
def trC9b : Transfer := { trC9 with tokenInfo := some tiC9b }

def txC9b : Tx := { txC9 with transfers := [trC9b] }

/-- A self-transfer (from = to = wallet) of the counterfeit token. -/
def trC10 : Transfer := { trC4 with toAddr := some w1 }

def txC10 : Tx := { txC4 with transfers := [trC10] }

/-- A native self-transfer that passes the filter. -/
def trC10w : Transfer :=
  { type := some "ETHER_TRANSFER", fromAddr := some w1, toAddr := some w1,
    value := some "1000000000000000000", tokenInfo := none, tokenAddress := none,
    tokenId := none, transactionHash := some "0xc10t" }

/-- The record produced for `trC10w` in a multisig transaction context
with fee `0.001`. -/
def recC10w : Record :=
  { Date := "2025-06-03 08:00:00", WalletAddress := w1, Chain := "eth", Direction := "OUT",
    Amount_Raw := "1", Currency := "ETH", Description := "Native Transfer ETH",
    TransactionHash := some "0xc10t", Fee_Native := "0.001", Counterparty := w1 }

/-- A trusted-address token-info value for the part of claim C2 about
the canonical contract. -/
def tiC2b : TokenInfo :=
  { address := some "0xdac17f958d2ee523a2206206994597c13d831ec7",
    symbol := some "USDT", name := some "Tether USD", decimals := some 6 }

/-! ### Helper lemmas -/

theorem char_toNat_ofNat {n : Nat} (h : n.isValidChar) : (Char.ofNat n).toNat = n := by
  rw [Char.ofNat, dif_pos h]
  rfl

set_option maxHeartbeats 1600000 in
theorem pyLowerCode_valid {n : Nat} (h : n.isValidChar) : (pyLowerCode n).isValidChar := by
  unfold Nat.isValidChar at h ⊢
  unfold pyLowerCode
  split_ifs <;> omega

theorem pyLowerCode_eq_self {n : Nat}
    (h : ¬(65 ≤ n ∧ n ≤ 90) ∧ ¬(0x391 ≤ n ∧ n ≤ 0x3A1) ∧ ¬(0x3A3 ≤ n ∧ n ≤ 0x3A9) ∧
      ¬(0x400 ≤ n ∧ n ≤ 0x40F) ∧ ¬(0x410 ≤ n ∧ n ≤ 0x42F) ∧ ¬(0xFF21 ≤ n ∧ n ≤ 0xFF3A)) :
    pyLowerCode n = n := by
  unfold pyLowerCode
  split_ifs <;> omega

theorem pyLowerCode_idem (n : Nat) : pyLowerCode (pyLowerCode n) = pyLowerCode n := by
  apply pyLowerCode_eq_self
  unfold pyLowerCode
  split_ifs <;> omega

theorem char_toNat_valid (c : Char) : c.toNat.isValidChar := by
  have h := c.valid
  unfold UInt32.isValidChar at h
  exact h

theorem pyLowerChar_idem (c : Char) : pyLowerChar (pyLowerChar c) = pyLowerChar c := by
  unfold pyLowerChar
  rw [char_toNat_ofNat (pyLowerCode_valid (char_toNat_valid c)), pyLowerCode_idem]

theorem pyLower_idem (s : String) : pyLower (pyLower s) = pyLower s := by
  unfold pyLower
  rw [List.map_map]
  exact congrArg String.mk (List.map_congr_left (fun c _ => pyLowerChar_idem c))

/-- An emitted transfer record is exactly the record literal of the
source, with the filter having declined. -/
theorem emitRecord_some {wl chain direction counterparty ds : String} {tt th : Option String}
    {dd : Option DataDecoded} {fee amt : PyDecimal} {tr : Transfer} {cs db : String}
    {rec : Record}
    (h : emitRecord wl chain direction counterparty ds tt th dd fee tr amt cs db = some rec) :
    rec = { Date := ds, WalletAddress := wl, Chain := chain, Direction := direction,
            Amount_Raw := decToString amt, Currency := cs,
            Description := db ++ methodSuffix dd,
            TransactionHash := tr.transactionHash <|> th,
            Fee_Native := feeStringFor tt fee, Counterparty := counterparty } := by
  unfold emitRecord at h
  split at h
  · exact absurd h (by simp)
  · exact (Option.some.inj h).symm

/-- Field characterization of a record emitted by the transfer body. -/
theorem transferBody_spec {wl chain dir craw ds : String} {tt th : Option String}
    {dd : Option DataDecoded} {fee : PyDecimal} {tr : Transfer} {b : Bool} {rec : Record}
    (h : transferBody wl chain dir craw ds tt th dd fee tr = Except.ok (b, some rec)) :
    b = true ∧ rec.Direction = dir ∧ rec.WalletAddress = wl ∧
    rec.Fee_Native = feeStringFor tt fee ∧
    rec.Counterparty = (if craw.isEmpty then "N/A" else pyLower craw) ∧
    rec.Chain = chain ∧ rec.Date = ds := by
  unfold transferBody at h
  split at h
  · exact absurd h (by simp)
  · simp at h
  · rw [Except.ok.injEq, Prod.mk.injEq] at h
    obtain ⟨hb, hr⟩ := h
    obtain rfl := emitRecord_some hr
    exact ⟨hb.symm, rfl, rfl, rfl, rfl, rfl, rfl⟩

/-- The body of a matched transfer always reports the flag `true`. -/
theorem transferBody_flag {wl chain dir craw ds : String} {tt th : Option String}
    {dd : Option DataDecoded} {fee : PyDecimal} {tr : Transfer} {b : Bool} {r : Option Record}
    (h : transferBody wl chain dir craw ds tt th dd fee tr = Except.ok (b, r)) : b = true := by
  unfold transferBody at h
  split at h
  · exact absurd h (by simp)
  · rw [Except.ok.injEq, Prod.mk.injEq] at h
    exact h.1.symm
  · rw [Except.ok.injEq, Prod.mk.injEq] at h
    exact h.1.symm

/-- The flag returned by one loop iteration is `transferMatches`, and no
record is emitted when the transfer is not attributed to the wallet. -/
theorem processTransfer_flag {wl chain : String} {tt th : Option String} {ds : String}
    {fee : PyDecimal} {dd : Option DataDecoded} {tr : Transfer} {b : Bool} {r : Option Record}
    (h : processTransfer wl chain tt th ds fee dd tr = Except.ok (b, r)) :
    b = transferMatches wl tr ∧ (b = false → r = none) := by
  unfold processTransfer at h
  unfold transferMatches
  rcases hfa : tr.fromAddr with _ | f <;> rw [hfa] at h
  · simp at h
    simp [h.1.symm, h.2.symm]
  · rcases hta : tr.toAddr with _ | t <;> rw [hta] at h
    · simp at h
      simp [h.1.symm, h.2.symm]
    · simp only at h
      split_ifs at h with h1 h2 h3
      · simp at h
        obtain ⟨hb, hr⟩ := h
        subst hb
        refine ⟨?_, fun _ => hr.symm⟩
        rcases h1 with h1 | h1 <;> simp [h1]
      · have hb := transferBody_flag h
        push_neg at h1
        constructor
        · simp [hb, h1.1, h1.2, h2]
        · intro hf
          rw [hb] at hf
          exact absurd hf (by simp)
      · have hb := transferBody_flag h
        push_neg at h1
        constructor
        · simp [hb, h1.1, h1.2, h3]
        · intro hf
          rw [hb] at hf
          exact absurd hf (by simp)
      · simp at h
        obtain ⟨hb, hr⟩ := h
        subst hb
        refine ⟨?_, fun _ => hr.symm⟩
        simp [h2, h3]

/-- Characterization of the transfers loop: the returned flag is the
disjunction of `transferMatches` over the traversed list, and every
returned record is either carried over from the accumulator or emitted
by some transfer of the list. -/
theorem transfersLoop_spec {wl chain : String} {tt th : Option String} {ds : String}
    {fee : PyDecimal} {dd : Option DataDecoded} :
    ∀ (l : List Transfer) (flag : Bool) (acc : List Record) (b : Bool) (out : List Record),
      transfersLoop wl chain tt th ds fee dd l flag acc = Except.ok (b, out) →
      b = (flag || l.any (transferMatches wl)) ∧
      ∀ r ∈ out, r ∈ acc ∨ ∃ tr, tr ∈ l ∧ ∃ bb,
        processTransfer wl chain tt th ds fee dd tr = Except.ok (bb, some r) := by
  intro l
  induction l with
  | nil =>
    intro flag acc b out h
    unfold transfersLoop at h
    rw [Except.ok.injEq, Prod.mk.injEq] at h
    refine ⟨by simp [h.1.symm], fun r hr => Or.inl (h.2 ▸ hr)⟩
  | cons tr rest ih =>
    intro flag acc b out h
    unfold transfersLoop at h
    split at h
    · exact absurd h (by simp)
    · rename_i b0 r0 hpt
      obtain ⟨hflag, hmem⟩ := ih (flag || b0) (acc ++ r0.toList) b out h
      obtain ⟨hb0, -⟩ := processTransfer_flag hpt
      constructor
      · rw [hflag, hb0]
        simp [List.any_cons, Bool.or_assoc]
      · intro r hr
        rcases hmem r hr with hacc | ⟨tr', htr', bb, hem⟩
        · rcases List.mem_append.mp hacc with hacc | hnew
          · exact Or.inl hacc
          · refine Or.inr ⟨tr, List.mem_cons_self tr rest, b0, ?_⟩
            rcases hr0 : r0 with _ | rec
            · rw [hr0] at hnew
              simp at hnew
            · rw [hr0] at hnew
              simp at hnew
              rw [hpt, hr0, hnew]
        · exact Or.inr ⟨tr', List.mem_cons_of_mem tr htr', bb, hem⟩

/-- Membership lemma for `processTx`: every returned record is either
emitted by a transfer of the transaction or is the synthetic fallback
record (the latter only for wallet-initiated transactions). -/
theorem processTx_mem {wl chain : String} {tx : Tx} {recs : List Record}
    (h : processTx wl chain tx = Except.ok recs) :
    ∀ r ∈ recs, ∃ ds fd, execDateOf tx = some ds ∧ computeTxFee tx = Except.ok fd ∧
      ((∃ tr, tr ∈ tx.transfers ∧ ∃ bb,
          processTransfer wl chain tx.txType (pyOrOpt tx.transactionHash tx.txHash) ds fd
            tx.dataDecoded tr = Except.ok (bb, some r)) ∨
        (walletInitiated tx.txType = true ∧ r = syntheticRecord wl chain ds tx fd)) := by
  intro r hr
  unfold processTx at h
  split at h
  · rw [Except.ok.injEq] at h
    rw [← h] at hr
    exact absurd hr (by simp)
  · rename_i ds hds
    split at h
    · exact absurd h (by simp)
    · rename_i fd hfd
      refine ⟨ds, fd, hds, hfd, ?_⟩
      split at h
      · exact absurd h (by simp)
      · rename_i pa recs0 hloop
        have hrec0 : ∀ r' ∈ recs0, ∃ tr, tr ∈ tx.transfers ∧ ∃ bb,
            processTransfer wl chain tx.txType (pyOrOpt tx.transactionHash tx.txHash) ds fd
              tx.dataDecoded tr = Except.ok (bb, some r') := by
          intro r' hr'
          split at hloop
          · rcases (transfersLoop_spec tx.transfers false [] pa recs0 hloop).2 r' hr' with
              hnil | hex
            · exact absurd hnil (by simp)
            · exact hex
          · rw [Except.ok.injEq, Prod.mk.injEq] at hloop
            rw [← hloop.2] at hr'
            exact absurd hr' (by simp)
        split_ifs at h with hsyn hcond
        · rw [Except.ok.injEq] at h
          rw [← h] at hr
          rcases List.mem_append.mp hr with hr' | hr'
          · exact Or.inl (hrec0 r hr')
          · simp at hr'
            exact Or.inr ⟨hsyn.2, hr'⟩
        · rw [Except.ok.injEq] at h
          exact Or.inl (hrec0 r (h ▸ hr))
        · rw [Except.ok.injEq] at h
          exact Or.inl (hrec0 r (h ▸ hr))

/-- Membership lemma for the outer loop over transactions. -/
theorem parseLoop_mem {wl chain : String} :
    ∀ (l : List Tx) (acc out : List Record),
      parseLoop wl chain l acc = Except.ok out →
      ∀ r ∈ out, r ∈ acc ∨ ∃ tx, tx ∈ l ∧ ∃ rs,
        processTx wl chain tx = Except.ok rs ∧ r ∈ rs := by
  intro l
  induction l with
  | nil =>
    intro acc out h r hr
    unfold parseLoop at h
    rw [Except.ok.injEq] at h
    exact Or.inl (h ▸ hr)
  | cons tx rest ih =>
    intro acc out h r hr
    unfold parseLoop at h
    split at h
    · exact absurd h (by simp)
    · rename_i rs htx
      rcases ih (acc ++ rs) out h r hr with hacc | ⟨tx', htx', rs', hrs', hr'⟩
      · rcases List.mem_append.mp hacc with hacc | hnew
        · exact Or.inl hacc
        · exact Or.inr ⟨tx, List.mem_cons_self tx rest, rs, htx, hnew⟩
      · exact Or.inr ⟨tx', List.mem_cons_of_mem tx htx', rs', hrs', hr'⟩

/-- Field characterization of any record emitted for a transfer:
wallet column, fee column, and a lowercase-or-"N/A" counterparty. -/
theorem processTransfer_fields {wl chain : String} {tt th : Option String} {ds : String}
    {fee : PyDecimal} {dd : Option DataDecoded} {tr : Transfer} {b : Bool} {rec : Record}
    (h : processTransfer wl chain tt th ds fee dd tr = Except.ok (b, some rec)) :
    rec.WalletAddress = wl ∧ rec.Fee_Native = feeStringFor tt fee ∧
    (pyLower rec.Counterparty = rec.Counterparty ∨ rec.Counterparty = "N/A") ∧
    rec.Chain = chain ∧ rec.Date = ds := by
  unfold processTransfer at h
  rcases hfa : tr.fromAddr with _ | f <;> rw [hfa] at h
  · simp at h
  · rcases hta : tr.toAddr with _ | t <;> rw [hta] at h
    · simp at h
    · simp only at h
      split_ifs at h with h1 h2 h3
      · simp at h
      · obtain ⟨-, -, hwa, hfee, hcp, hch, hdt⟩ := transferBody_spec h
        refine ⟨hwa, hfee, ?_, hch, hdt⟩
        rw [hcp]
        split_ifs with he
        · exact Or.inr rfl
        · exact Or.inl (pyLower_idem t)
      · obtain ⟨-, -, hwa, hfee, hcp, hch, hdt⟩ := transferBody_spec h
        refine ⟨hwa, hfee, ?_, hch, hdt⟩
        rw [hcp]
        split_ifs with he
        · exact Or.inr rfl
        · exact Or.inl (pyLower_idem f)
      · simp at h

/-- The currency symbol computed for an ERC20 transfer carrying token
metadata is the metadata's symbol (default "UnknownERC20"). -/
theorem computeAmount_erc20_symbol {chain : String} {tr : Transfer} {ti : TokenInfo}
    {av : String} {amt : PyDecimal} {cs db : String}
    (htype : tr.type = some "ERC20_TRANSFER") (hti : tr.tokenInfo = some ti)
    (h : computeAmount chain tr av = Except.ok (some (amt, cs, db))) :
    cs = ti.symbol.getD "UnknownERC20" := by
  unfold computeAmount at h
  rw [if_pos htype, hti] at h
  split at h
  · rename_i ti' hti'
    obtain rfl := Option.some.inj hti'
    split at h
    · split at h
      · simp only [Except.ok.injEq, Option.some.injEq, Prod.mk.injEq] at h
        exact h.2.1.symm
      · exact absurd h (by simp)
    · split at h
      · simp only [Except.ok.injEq, Option.some.injEq, Prod.mk.injEq] at h
        exact h.2.1.symm
      · exact absurd h (by simp)
  · rename_i hti'
    exact absurd hti' (by simp)

/-- The token metadata recomputed for the filter, for an ERC20 transfer
with token info. -/
theorem erc20TokenMeta_eq {tr : Transfer} {ti : TokenInfo}
    (htype : tr.type = some "ERC20_TRANSFER") (hti : tr.tokenInfo = some ti) :
    erc20TokenMeta tr = (some ti, ti.name.getD "") := by
  unfold erc20TokenMeta
  rw [if_pos htype, hti]

/-- Criterion 1 of the filter fires on the four-character symbol with a
Cyrillic capital Te, for any token that is not whitelisted. -/
theorem fake_cyrillic (fee_str name : String) (ti : Option TokenInfo)
    (hauth : is_authentic_usdt ti = false) :
    is_fake_token fee_str "USDТ" name ti = true := by
  unfold is_fake_token
  rw [hauth]
  have h1 : containsNonAscii "USDТ" = true := by decide
  have h2 : decide (3 ≤ String.length "USDТ") = true := by decide
  have h3 : decide (String.length "USDТ" ≤ 5) = true := by decide
  simp [h1, h2, h3]

/-- A transfer body for a non-whitelisted ERC20 token with the Cyrillic
symbol emits no record. -/
theorem fake_body_none {wl chain dir craw ds : String} {tt th : Option String}
    {dd : Option DataDecoded} {fee : PyDecimal} {tr : Transfer} {ti : TokenInfo} {b : Bool}
    {r : Option Record}
    (htype : tr.type = some "ERC20_TRANSFER") (hti : tr.tokenInfo = some ti)
    (hsym : ti.symbol = some "USDТ") (hauth : is_authentic_usdt (some ti) = false)
    (h : transferBody wl chain dir craw ds tt th dd fee tr = Except.ok (b, r)) : r = none := by
  unfold transferBody at h
  rcases hca : computeAmount chain tr (tr.value.getD "0") with e | o <;> rw [hca] at h
  · exact absurd h (by simp)
  · rcases o with _ | ⟨amt, cs, db⟩
    · simp at h
      exact h.2.symm
    · have hcs : cs = "USDТ" := by
        rw [computeAmount_erc20_symbol htype hti hca, hsym]
        rfl
      simp only at h
      rw [Except.ok.injEq, Prod.mk.injEq] at h
      rw [← h.2]
      unfold emitRecord
      rw [erc20TokenMeta_eq htype hti, hcs]
      rw [if_pos (fake_cyrillic (feeStringFor tt fee) (ti.name.getD "") (some ti) hauth)]

/-! ### Claim theorems -/

/-- Claim C1: for the single multisig transaction with execution date
"2025-05-05T06:19:11Z", a successful status, fee "1000000000000000" and
one ERC20 transfer of "1000000" raw units of a 6-decimal USDT token from
the wallet to another address, `parse_safe_transactions` returns exactly
one record with date "2025-05-05 06:19:11", direction OUT, amount "1",
currency "USDT", native fee "0.001" and the lowercased to-address as
counterparty. -/
theorem c1_end_to_end :
    parse_safe_transactions [txC1] w1 "eth" = Except.ok [recC1] ∧
    recC1.Date = "2025-05-05 06:19:11" ∧ recC1.Direction = "OUT" ∧
    recC1.Amount_Raw = "1" ∧ recC1.Currency = "USDT" ∧ recC1.Fee_Native = "0.001" ∧
    recC1.Counterparty = pyLower "0xAbCdEfAbCdEfAbCdEfAbCdEfAbCdEfAbCdEfAbCd" :=
  ⟨rfl, rfl, rfl, rfl, rfl, rfl, rfl⟩

/-- Claim C3 (failing input): a wallet-initiated transaction whose fee
string "not-a-number" does not parse as a decimal makes
`parse_safe_transactions` abort the whole batch with a `NameError`
(the source's `except` clause names `InvalidOperation`, which is never
imported), instead of defaulting the fee to zero and continuing as the
specification requires. -/
theorem c3_unparseable_fee_raises :
    parse_safe_transactions [txC3] w1 "eth" = Except.error nameErrorMsg := rfl

/-- Claim C2: an ERC20 transfer whose token symbol is "USDТ" (last
letter Cyrillic U+0422), with zero attributed fee and a token contract
address outside the trusted set, is discarded by the counterfeit filter
and never yields a record; conversely a token whose contract address is
the trusted 0xdac17f958d2ee523a2206206994597c13d831ec7 with ASCII symbol
"USDT" is never flagged as counterfeit, whatever the fee string. -/
theorem c2_counterfeit_filter :
    (∀ (wl chain : String) (tt th : Option String) (ds : String) (fee : PyDecimal)
      (dd : Option DataDecoded) (tr : Transfer) (ti : TokenInfo) (b : Bool) (r : Option Record),
      tr.type = some "ERC20_TRANSFER" → tr.tokenInfo = some ti → ti.symbol = some "USDТ" →
      is_authentic_usdt (some ti) = false → feeStringFor tt fee = "0.0" →
      processTransfer wl chain tt th ds fee dd tr = Except.ok (b, r) → r = none) ∧
    (∀ (fee_str name : String) (ti : TokenInfo),
      ti.address = some "0xdac17f958d2ee523a2206206994597c13d831ec7" →
      is_fake_token fee_str "USDT" name (some ti) = false) := by
  constructor
  · intro wl chain tt th ds fee dd tr ti b r htype hti hsym hauth _ h
    unfold processTransfer at h
    rcases hfa : tr.fromAddr with _ | f <;> rw [hfa] at h
    · simp at h
      exact h.2.symm
    · rcases hta : tr.toAddr with _ | t <;> rw [hta] at h
      · simp at h
        exact h.2.symm
      · simp only at h
        split_ifs at h with h1 h2 h3
        · simp at h
          exact h.2.symm
        · exact fake_body_none htype hti hsym hauth h
        · exact fake_body_none htype hti hsym hauth h
        · simp at h
          exact h.2.symm
  · intro fee_str name ti haddr
    have hauth : is_authentic_usdt (some ti) = true := by
      simp only [is_authentic_usdt]
      rw [haddr]
      decide
    unfold is_fake_token
    rw [hauth]
    simp

/-- Claim C2 witness: the counterfeit self-named token of `trC4` is
dropped, and the trusted-address token `tiC2b` passes whatever the fee
string. -/
theorem c2_counterfeit_filter_witness :
    (none : Option Record) = none ∧
    is_fake_token "55" "USDT" "Tether USD" (some tiC2b) = false := by
  constructor
  · exact c2_counterfeit_filter.1 w1 "eth" (some "ETHEREUM_TRANSACTION") none
      "2025-05-05 06:19:11" ⟨0, 0⟩ none trC4
      { address := some "0xbad0000000000000000000000000000000000bad", symbol := some "USDТ",
        name := some "Tether USD", decimals := some 6 } true none rfl rfl rfl (by decide) rfl rfl
  · exact c2_counterfeit_filter.2 "55" "Tether USD" tiC2b rfl

/-- Claim C6: a record is emitted for a transfer only when one of its
endpoint addresses equals the (lowercased) wallet; the direction is OUT
on a from-side match and IN on a to-side match, and a transfer matching
on neither side is skipped without a record. -/
theorem c6_direction_resolution :
    (∀ (wl chain : String) (tt th : Option String) (ds : String) (fee : PyDecimal)
      (dd : Option DataDecoded) (tr : Transfer) (b : Bool) (rec : Record),
      processTransfer wl chain tt th ds fee dd tr = Except.ok (b, some rec) →
      ∃ f t, tr.fromAddr = some f ∧ tr.toAddr = some t ∧
        (pyLower f = wl ∨ pyLower t = wl) ∧
        rec.Direction = (if pyLower f = wl then "OUT" else "IN")) ∧
    (∀ (wl chain : String) (tt th : Option String) (ds : String) (fee : PyDecimal)
      (dd : Option DataDecoded) (tr : Transfer),
      transferMatches wl tr = false →
      processTransfer wl chain tt th ds fee dd tr = Except.ok (false, none)) := by
  constructor
  · intro wl chain tt th ds fee dd tr b rec h
    unfold processTransfer at h
    rcases hfa : tr.fromAddr with _ | f <;> rw [hfa] at h
    · simp at h
    · rcases hta : tr.toAddr with _ | t <;> rw [hta] at h
      · simp at h
      · simp only at h
        split_ifs at h with h1 h2 h3
        · simp at h
        · refine ⟨f, t, rfl, rfl, Or.inl h2, ?_⟩
          rw [if_pos h2]
          exact (transferBody_spec h).2.1
        · refine ⟨f, t, rfl, rfl, Or.inr h3, ?_⟩
          rw [if_neg h2]
          exact (transferBody_spec h).2.1
        · simp at h
  · intro wl chain tt th ds fee dd tr hm
    unfold processTransfer
    rcases hfa : tr.fromAddr with _ | f
    · rfl
    · rcases hta : tr.toAddr with _ | t
      · rfl
      · unfold transferMatches at hm
        rw [hfa, hta] at hm
        dsimp only at hm ⊢
        split_ifs with h1 h2 h3
        · rfl
        · exfalso
          push_neg at h1
          simp [h1.1, h1.2, h2] at hm
        · exfalso
          push_neg at h1
          simp [h1.1, h1.2, h3] at hm
        · rfl

/-- Claim C6 witness: the incoming native transfer of `txC7` matches on
the to-side, and a transfer touching two third-party addresses is
skipped. -/
theorem c6_direction_resolution_witness :
    (∃ f t, trC7.fromAddr = some f ∧ trC7.toAddr = some t ∧
      (pyLower f = w1 ∨ pyLower t = w1) ∧
      recC7.Direction = (if pyLower f = w1 then "OUT" else "IN")) ∧
    processTransfer "0x9999999999999999999999999999999999999999" "eth"
      (some "ETHEREUM_TRANSACTION") (some "0xc7") "2025-06-01 00:00:00" ⟨0, 0⟩ none trC7 =
      Except.ok (false, none) := by
  constructor
  · exact c6_direction_resolution.1 w1 "eth" (some "ETHEREUM_TRANSACTION")
      (some "0xc7") "2025-06-01 00:00:00" ⟨0, 0⟩ none trC7 true recC7 rfl
  · exact c6_direction_resolution.2 "0x9999999999999999999999999999999999999999" "eth"
      (some "ETHEREUM_TRANSACTION") (some "0xc7") "2025-06-01 00:00:00" ⟨0, 0⟩ none trC7 rfl

/-- Claim C10 counterexample: a self-transfer of a counterfeit token is
dropped by the filter, so the claimed "exactly one record" fails — the
batch yields no record at all. -/
theorem c10_counterexample :
    trC10.fromAddr = some w1 ∧ trC10.toAddr = some w1 ∧
    parse_safe_transactions [txC10] w1 "eth" = Except.ok [] := ⟨rfl, rfl, rfl⟩

/-- Claim C10 (amended): whenever a record is emitted for a transfer
whose from- and to-addresses both lowercase to the wallet, that record
has direction OUT and the wallet's own lowercased address as
counterparty: the from-side branch takes priority. -/
theorem c10_self_transfer {wl chain : String} {tt th : Option String} {ds : String}
    {fee : PyDecimal} {dd : Option DataDecoded} {tr : Transfer} {f t : String} {b : Bool}
    {rec : Record}
    (hfa : tr.fromAddr = some f) (hta : tr.toAddr = some t)
    (hfw : pyLower f = wl) (htw : pyLower t = wl)
    (h : processTransfer wl chain tt th ds fee dd tr = Except.ok (b, some rec)) :
    rec.Direction = "OUT" ∧ rec.Counterparty = wl := by
  unfold processTransfer at h
  rw [hfa, hta] at h
  dsimp only at h
  split_ifs at h with h1
  · simp at h
  · obtain ⟨-, hdir, -, -, hcp, -, -⟩ := transferBody_spec h
    refine ⟨hdir, ?_⟩
    rw [hcp]
    push_neg at h1
    rw [if_neg h1.2, htw]

/-- Claim C10 witness: the native self-transfer `trC10w` in a multisig
context yields direction OUT with the wallet itself as counterparty. -/
theorem c10_self_transfer_witness :
    recC10w.Direction = "OUT" ∧ recC10w.Counterparty = w1 :=
  c10_self_transfer (rfl : trC10w.fromAddr = some w1) (rfl : trC10w.toAddr = some w1)
    (show pyLower w1 = w1 from rfl) (show pyLower w1 = w1 from rfl)
    (rfl : processTransfer w1 "eth" (some "MULTISIG_TRANSACTION") (some "0xc10")
      "2025-06-03 08:00:00" ⟨1, -3⟩ none trC10w = Except.ok (true, some recC10w))

/-- Claim C4 counterexample: a successful wallet-initiated transaction
whose only transfer is attributed to the wallet but then dropped by the
counterfeit filter produces no transfer record, yet the code emits no
synthetic record either — the flag is set before the filter runs. -/
theorem c4_counterexample :
    txC4.txType = some "MULTISIG_TRANSACTION" ∧ successTruthy txC4.isSuccessful = true ∧
    parse_safe_transactions [txC4] w1 "eth" = Except.ok [] := ⟨rfl, rfl, rfl⟩

/-- Claim C4 (amended): a wallet-initiated transaction with a parseable
execution date in which no embedded transfer was attributed to the
wallet (rather than: which produced no transfer record) emits, when its
fee is positive or it succeeded, exactly the one synthetic record, with
direction OUT, amount "0.0", currency "N/A", the computed fee, and a
"Failed"-prefixed method-derived description when it did not succeed. -/
theorem c4_synthetic_fallback {wl chain : String} {tx : Tx} {recs : List Record} {ds : String}
    {fd : PyDecimal}
    (hw : walletInitiated tx.txType = true)
    (hna : anyTransferAttributed wl tx = false)
    (hds : execDateOf tx = some ds)
    (hfd : computeTxFee tx = Except.ok fd)
    (hcond : 0 < fd.coeff ∨ successTruthy tx.isSuccessful = true)
    (h : processTx wl chain tx = Except.ok recs) :
    recs = [syntheticRecord wl chain ds tx fd] ∧
    (syntheticRecord wl chain ds tx fd).Direction = "OUT" ∧
    (syntheticRecord wl chain ds tx fd).Amount_Raw = "0.0" ∧
    (syntheticRecord wl chain ds tx fd).Currency = "N/A" ∧
    (syntheticRecord wl chain ds tx fd).Fee_Native = decToString fd ∧
    (successTruthy tx.isSuccessful = false →
      (syntheticRecord wl chain ds tx fd).Description =
        "Failed " ++ syntheticDescriptionBase tx) := by
  unfold processTx at h
  split at h
  · rename_i hnone
    rw [hds] at hnone
    exact absurd hnone (by simp)
  · rename_i ds' hds'
    rw [hds] at hds'
    obtain rfl := Option.some.inj hds'
    split at h
    · rename_i e hfd'
      rw [hfd] at hfd'
      exact absurd hfd' (by simp)
    · rename_i fd' hfd'
      rw [hfd] at hfd'
      obtain rfl := Except.ok.inj hfd'
      split at h
      · exact absurd h (by simp)
      · rename_i pa recs0 heq
        have hkey : pa = false ∧ recs0 = [] := by
          split at heq
          · rename_i hC
            have hspec := transfersLoop_spec tx.transfers false [] pa recs0 heq
            have hX : (!tx.transfers.isEmpty &&
                (successTruthy tx.isSuccessful ||
                  tx.txType == some "ETHEREUM_TRANSACTION")) = true := by
              obtain ⟨hne, hsucc⟩ := hC
              rw [Bool.not_eq_true] at hne
              rcases hsucc with hs | ht
              · simp [hne, hs]
              · simp [hne, ht]
            have hany : tx.transfers.any (transferMatches wl) = false := by
              unfold anyTransferAttributed at hna
              rw [hX] at hna
              simpa using hna
            have hpa : pa = false := by
              rw [hspec.1, hany]
              rfl
            refine ⟨hpa, List.eq_nil_iff_forall_not_mem.mpr ?_⟩
            intro r hr
            rcases hspec.2 r hr with hin | ⟨tr, htr, bb, hpt⟩
            · exact absurd hin (by simp)
            · obtain ⟨hbb, hbn⟩ := processTransfer_flag hpt
              cases hb : bb with
              | false => exact absurd (hbn hb) (by simp)
              | true =>
                have hmt : transferMatches wl tr = true := by rw [← hbb, hb]
                have : tx.transfers.any (transferMatches wl) = true :=
                  List.any_eq_true.mpr ⟨tr, htr, hmt⟩
                rw [hany] at this
                exact absurd this (by simp)
          · rw [Except.ok.injEq, Prod.mk.injEq] at heq
            exact ⟨heq.1.symm, heq.2.symm⟩
        obtain ⟨rfl, rfl⟩ := hkey
        rw [if_pos ⟨rfl, hw⟩] at h
        have hcond' : decPosB fd = true ∨ successTruthy tx.isSuccessful = true := by
          rcases hcond with hlt | hs
          · exact Or.inl (by simp [decPosB, hlt])
          · exact Or.inr hs
        rw [if_pos hcond'] at h
        rw [Except.ok.injEq] at h
        refine ⟨h.symm, rfl, rfl, rfl, rfl, ?_⟩
        intro hfail
        simp [syntheticRecord, hfail]

/-- Claim C4 witness: the failed multisig transaction `txC4w` with fee
"21000000000000" and no transfers yields exactly one synthetic record,
with native fee "0.000021" and a "Failed"-prefixed description. -/
theorem c4_synthetic_fallback_witness :
    [recC4w] = [syntheticRecord w1 "eth" "2025-05-05 06:19:11" txC4w ⟨21, -6⟩] ∧
    recC4w.Fee_Native = "0.000021" ∧ recC4w.Description = "Failed Safe Operation" :=
  ⟨(c4_synthetic_fallback (rfl : walletInitiated txC4w.txType = true)
      (rfl : anyTransferAttributed w1 txC4w = false)
      (rfl : execDateOf txC4w = some "2025-05-05 06:19:11")
      (rfl : computeTxFee txC4w = Except.ok (⟨21, -6⟩ : PyDecimal)) (Or.inl (by decide))
      (rfl : processTx w1 "eth" txC4w = Except.ok [recC4w])).1.symm, rfl, rfl⟩

/-- Claim C5: every record of a transaction carries the fee string of
its parent: "0.0" unless the transaction type is wallet-initiated, in
which case it is the string of the computed fee, which in turn is the
parsed raw fee divided by 10^18; records of ETHEREUM_TRANSACTION
transactions always carry "0.0". -/
theorem c5_fee_attribution {wl chain : String} {tx : Tx} {recs : List Record} {fd : PyDecimal}
    (hfd : computeTxFee tx = Except.ok fd)
    (h : processTx wl chain tx = Except.ok recs) :
    (∀ r ∈ recs, r.Fee_Native = feeStringFor tx.txType fd) ∧
    (walletInitiated tx.txType = false → ∀ r ∈ recs, r.Fee_Native = "0.0") ∧
    (tx.txType = some "ETHEREUM_TRANSACTION" → ∀ r ∈ recs, r.Fee_Native = "0.0") ∧
    (walletInitiated tx.txType = true → ∀ f v, tx.fee = some f → f.isEmpty = false →
      parsePyDecimal f = some v → fd = decDivPow v (decPow10 18)) := by
  have hmain : ∀ r ∈ recs, r.Fee_Native = feeStringFor tx.txType fd := by
    intro r hr
    obtain ⟨ds, fd', hds, hfd', hcases⟩ := processTx_mem h r hr
    rw [hfd] at hfd'
    obtain rfl := Except.ok.inj hfd'
    rcases hcases with ⟨tr, -, bb, hpt⟩ | ⟨hwi, hsynth⟩
    · exact (processTransfer_fields hpt).2.1
    · rw [hsynth]
      simp [syntheticRecord, feeStringFor, hwi]
  refine ⟨hmain, ?_, ?_, ?_⟩
  · intro hnw r hr
    rw [hmain r hr]
    simp [feeStringFor, hnw]
  · intro hET r hr
    rw [hmain r hr]
    have hnw : walletInitiated tx.txType = false := by
      simp [walletInitiated, hET]
    simp [feeStringFor, hnw]
  · intro hwi f v hf hne hv
    unfold computeTxFee at hfd
    rw [if_pos hwi, hf] at hfd
    dsimp only at hfd
    rw [if_neg (by simp [hne]), hv] at hfd
    exact (Except.ok.inj hfd).symm

/-- Claim C5 witness: the single record of `txC1` carries the fee string
of its computed fee, 0.001. -/
theorem c5_fee_attribution_witness :
    (∀ r ∈ [recC1], r.Fee_Native = feeStringFor txC1.txType ⟨1, -3⟩) ∧
    recC1.Fee_Native = "0.001" :=
  ⟨(c5_fee_attribution (rfl : computeTxFee txC1 = Except.ok ⟨1, -3⟩)
      (rfl : processTx w1 "eth" txC1 = Except.ok [recC1])).1, rfl⟩

/-- Claim C7 counterexample: an ETHEREUM_TRANSACTION whose isSuccessful
field is explicitly false still has its embedded transfers processed,
emitting a value-transfer record. -/
theorem c7_counterexample :
    txC7.isSuccessful = some (some false) ∧
    parse_safe_transactions [txC7] w1 "eth" = Except.ok [recC7] ∧
    recC7.Amount_Raw = "2" ∧ recC7.Direction = "IN" := ⟨rfl, rfl, rfl, rfl⟩

/-- Claim C7 (amended): a transaction with isSuccessful false whose type
is not ETHEREUM_TRANSACTION contributes no value-transfer record; the
only record it may contribute is a single fee-only synthetic record
(direction OUT, amount "0.0", currency "N/A"), and only when it is
wallet-initiated and its computed fee is positive. -/
theorem c7_failed_tx {wl chain : String} {tx : Tx} {recs : List Record}
    (hfail : tx.isSuccessful = some (some false))
    (hnET : tx.txType ≠ some "ETHEREUM_TRANSACTION")
    (h : processTx wl chain tx = Except.ok recs) :
    recs.length ≤ 1 ∧ ∀ r ∈ recs,
      walletInitiated tx.txType = true ∧ r.Direction = "OUT" ∧ r.Amount_Raw = "0.0" ∧
      r.Currency = "N/A" ∧
      ∃ fd, computeTxFee tx = Except.ok fd ∧ 0 < fd.coeff ∧ r.Fee_Native = decToString fd := by
  have hsucc : successTruthy tx.isSuccessful = false := by
    rw [hfail]
    rfl
  unfold processTx at h
  split at h
  · rw [Except.ok.injEq] at h
    rw [← h]
    exact ⟨by simp, by simp⟩
  · rename_i ds hds
    split at h
    · exact absurd h (by simp)
    · rename_i fd hfd
      have hC : ¬(¬tx.transfers.isEmpty = true ∧
          (successTruthy tx.isSuccessful = true ∨ tx.txType = some "ETHEREUM_TRANSACTION")) := by
        rintro ⟨-, hd⟩
        rcases hd with hs | ht
        · rw [hsucc] at hs
          exact absurd hs (by simp)
        · exact hnET ht
      split at h
      · rename_i e heq
        rw [if_neg hC] at heq
        exact absurd heq (by simp)
      · rename_i pa recs0 heq
        rw [if_neg hC, Except.ok.injEq, Prod.mk.injEq] at heq
        obtain ⟨hpa, hrecs0⟩ := heq
        rw [← hpa, ← hrecs0] at h
        by_cases hwi : walletInitiated tx.txType = true
        · rw [if_pos ⟨rfl, hwi⟩] at h
          by_cases hfee : decPosB fd = true ∨ successTruthy tx.isSuccessful = true
          · rw [if_pos hfee] at h
            rw [Except.ok.injEq] at h
            rw [← h]
            have hpos : 0 < fd.coeff := by
              rcases hfee with hp | hs
              · simpa [decPosB] using hp
              · rw [hsucc] at hs
                exact absurd hs (by simp)
            refine ⟨by simp, ?_⟩
            intro r hr
            simp only [List.nil_append, List.mem_singleton] at hr
            rw [hr]
            exact ⟨hwi, rfl, rfl, rfl, fd, hfd, hpos, rfl⟩
          · rw [if_neg hfee, Except.ok.injEq] at h
            rw [← h]
            exact ⟨by simp, by simp⟩
        · rw [if_neg (fun hand => hwi hand.2), Except.ok.injEq] at h
          rw [← h]
          exact ⟨by simp, by simp⟩

/-- Claim C7 witness: the failed multisig transaction `txC4w` yields a
single fee-only record. -/
theorem c7_failed_tx_witness :
    [recC4w].length ≤ 1 ∧ ∀ r ∈ [recC4w],
      walletInitiated txC4w.txType = true ∧ r.Direction = "OUT" ∧ r.Amount_Raw = "0.0" ∧
      r.Currency = "N/A" ∧
      ∃ fd, computeTxFee txC4w = Except.ok fd ∧ 0 < fd.coeff ∧ r.Fee_Native = decToString fd :=
  c7_failed_tx rfl (by decide) (rfl : processTx w1 "eth" txC4w = Except.ok [recC4w])

/-- Claim C8 counterexample: the synthetic record of a wallet-initiated
transaction without a `to` address carries the literal counterparty
"N/A", which is not lowercase. -/
theorem c8_counterexample :
    parse_safe_transactions [txC8] w1 "eth" = Except.ok [recC8] ∧
    recC8.Counterparty = "N/A" ∧ pyLower recC8.Counterparty ≠ recC8.Counterparty :=
  ⟨rfl, rfl, by decide⟩

/-- Claim C8 (amended): for every emitted record, the wallet column is
lowercase, and the counterparty column is lowercase except for the
literal placeholder "N/A" used when no counterparty address exists. -/
theorem c8_lowercase_fields {txs : List Tx} {wallet chain : String} {out : List Record}
    (h : parse_safe_transactions txs wallet chain = Except.ok out) :
    ∀ r ∈ out, pyLower r.WalletAddress = r.WalletAddress ∧
      (pyLower r.Counterparty = r.Counterparty ∨ r.Counterparty = "N/A") := by
  intro r hr
  unfold parse_safe_transactions at h
  rcases parseLoop_mem txs [] out h r hr with hnil | ⟨tx, -, rs, htx, hrs⟩
  · exact absurd hnil (by simp)
  · obtain ⟨ds, fd, -, -, hcases⟩ := processTx_mem htx r hrs
    rcases hcases with ⟨tr, -, bb, hpt⟩ | ⟨-, hsynth⟩
    · obtain ⟨hwa, -, hcp, -, -⟩ := processTransfer_fields hpt
      rw [hwa]
      exact ⟨pyLower_idem wallet, hcp⟩
    · rw [hsynth]
      refine ⟨pyLower_idem wallet, ?_⟩
      simp only [syntheticRecord]
      rcases hto : tx.toAddr with _ | s
      · exact Or.inr rfl
      · dsimp only
        split_ifs with he
        · exact Or.inr rfl
        · exact Or.inl (pyLower_idem s)

/-- Claim C8 witness: the record of `txC1` has a lowercase wallet column
and a lowercase counterparty. -/
theorem c8_lowercase_fields_witness :
    pyLower recC1.WalletAddress = recC1.WalletAddress ∧
    (pyLower recC1.Counterparty = recC1.Counterparty ∨ recC1.Counterparty = "N/A") :=
  c8_lowercase_fields (rfl : parse_safe_transactions [txC1] w1 "eth" = Except.ok [recC1])
    recC1 (List.mem_singleton.mpr rfl)

/-- Claim C9 counterexample: the Ethereum-mainnet USDT contract address
is treated as authentic on chain "optimism" as well — the same transfer
with an untrusted address is filtered there, while the eth-canonical
address passes. -/
theorem c9_counterexample :
    parse_safe_transactions [txC9] w1 "optimism" = Except.ok [recC9 "optimism"] ∧
    parse_safe_transactions [txC9b] w1 "optimism" = Except.ok [] := ⟨rfl, rfl⟩

/-- Claim C9 (amended): the trusted contract-address table is one shared
chain-independent set containing both the Ethereum-mainnet and the
Optimism USDT addresses; a contract address trusted on one chain is
trusted under every chain argument, while an untrusted address is
filtered under every chain argument. -/
theorem c9_shared_trusted_table :
    trusted_usdt_addresses = ["0xdac17f958d2ee523a2206206994597c13d831ec7",
      "0x94b008aa00579c1307b0ef2c499ad98a8ce58e58"] ∧
    (∀ chain : String, parse_safe_transactions [txC9] w1 chain = Except.ok [recC9 chain]) ∧
    (∀ chain : String, parse_safe_transactions [txC9b] w1 chain = Except.ok []) :=
  ⟨rfl, fun _ => rfl, fun _ => rfl⟩

end DAOAccountant
